import Mathlib

/-!
Shallow embedding of the Extron SW6VGA Home Assistant integration
(`custom_components/extron_sw6vga`): the line-framing reader of
`extron_serial.py`, the message-handling state machine and the controller
operations of `__init__.py`, and the device-URL handling of
`extron_serial.py` / `config_flow.py`, together with proofs about them.

Messages are modelled as `List Char` (a decoded line); the Python string
builtins used by the source (`str.strip`, `str.split`, `str.startswith`,
`str.upper`, `in`, `int`, `str.replace`) are modelled explicitly below.
-/

namespace Extron

/-- Characters treated as whitespace by Python's `str.strip()`, `str.split()`
and `int()`: space, tab, newline, carriage return, vertical tab, form feed. -/
def isPySpace (c : Char) : Bool :=
  c = ' ' || c = '\t' || c = '\n' || c = '\r' || c = '\x0b' || c = '\x0c'

/-- Python `str.strip()` on a character list: drop whitespace at both ends. -/
def pyStrip (l : List Char) : List Char :=
  ((l.dropWhile isPySpace).reverse.dropWhile isPySpace).reverse

/-- Helper for `pySplit`: `acc` is the current token, reversed. -/
def pySplitAux : List Char → List Char → List (List Char)
  | [], acc => if acc.isEmpty then [] else [acc.reverse]
  | c :: rest, acc =>
    if isPySpace c then
      if acc.isEmpty then pySplitAux rest []
      else acc.reverse :: pySplitAux rest []
    else pySplitAux rest (c :: acc)

/-- Python `str.split()` with no separator: split on runs of whitespace,
producing no empty tokens. -/
def pySplit (l : List Char) : List (List Char) := pySplitAux l []

/-- Python's `sub in s` substring test. -/
def pyContains (sub : List Char) : List Char → Bool
  | [] => sub.isEmpty
  | c :: rest => sub.isPrefixOf (c :: rest) || pyContains sub rest

/-- Python `s.startswith(pre)`. -/
def pyStartsWith (pre s : List Char) : Bool := pre.isPrefixOf s

/-- Python `s.upper()` (the protocol is ASCII, where it is `Char.toUpper`). -/
def pyUpper (l : List Char) : List Char := l.map Char.toUpper

/-- Numeric value of a digit list (most significant first). -/
def digitsVal (ds : List Char) : Nat :=
  ds.foldl (fun n c => 10 * n + (c.toNat - 48)) 0

/-- Model of Python `int(s)` on a string: surrounding whitespace is allowed,
then an optional sign and a nonempty run of decimal digits; anything else
raises `ValueError`, modelled as `none`.  (Python 3 additionally allows
underscore digit grouping, never produced by this device protocol.) -/
def pyInt (l : List Char) : Option Int :=
  match pyStrip l with
  | '+' :: ds =>
    if !ds.isEmpty && ds.all Char.isDigit then some (digitsVal ds : Int) else none
  | '-' :: ds =>
    if !ds.isEmpty && ds.all Char.isDigit then some (-(digitsVal ds : Int)) else none
  | ds =>
    if !ds.isEmpty && ds.all Char.isDigit then some (digitsVal ds : Int) else none

/-- Python `part.replace("QVER", "")`: delete every occurrence of `QVER`,
scanning left to right (used on the `QVER<version>` status token). -/
def removeQVER : List Char → List Char
  | 'Q' :: 'V' :: 'E' :: 'R' :: rest => removeQVER rest
  | c :: rest => c :: removeQVER rest
  | [] => []

/-- The mutable state held by `ExtronSwitcher` (`__init__.py`), including the
`sw_version` slot of its `device_info` record. -/
structure SwState where
  current_input : Option Int
  audio_input : Option Int
  auto_mode : Bool
  available : Bool
  sw_version : Option String
deriving Repr, DecidableEq

/-- State of a freshly constructed `ExtronSwitcher` (`__init__.py` lines
57–76): inputs unknown, manual mode assumed, not available, no firmware
version. -/
def initState : SwState :=
  { current_input := none
    audio_input := none
    auto_mode := false
    available := false
    sw_version := none }

/-- One token of the status-dump branch of `ExtronSwitcher._handle_message`
(`__init__.py` lines 135–156): `V<n>` sets the video input, `A<n>` the audio
input, `F<x>` the mode (`"2"` = auto), `QVER<v>` the firmware version, and
`M<n>` is a no-op; an unparsable `V`/`A` integer is swallowed by
`try/except: pass`; any other token falls through with no effect. -/
def applyStatusToken (s : SwState) (part : List Char) : SwState :=
  if pyStartsWith ['V'] part then
    match pyInt (part.drop 1) with
    | some n => { s with current_input := some n }
    | none => s
  else if pyStartsWith ['A'] part then
    match pyInt (part.drop 1) with
    | some n => { s with audio_input := some n }
    | none => s
  else if pyStartsWith ['F'] part then
    { s with auto_mode := decide (part.drop 1 = ['2']) }
  else if pyStartsWith ['Q','V','E','R'] part then
    { s with sw_version := some (String.mk (removeQVER part)) }
  else
    s

/-- `int(msg[2:].split()[0])` with its surrounding `try/except Exception`
(`__init__.py` lines 112–117): `none` models both the `IndexError` of an
empty split and the `ValueError` of a non-numeric token. -/
def firstTokenInt (l : List Char) : Option Int :=
  match pySplit l with
  | [] => none
  | tok :: _ => pyInt tok

/-- `ExtronSwitcher._handle_message` (`__init__.py` lines 93–188), restricted
to its effect on the switcher state.  The `Reconfig`/`RECONFIG`, `E0`/`E1`
and unrecognized branches only log, so they appear here as the final
identity case. -/
def handleMessageL (s : SwState) (message : List Char) : SwState :=
  let msg := pyStrip message
  if msg.isEmpty then s
  else if pyStartsWith ['I','n'] msg || pyStartsWith ['I','N'] msg then
    if pyContains ['A','l','l'] msg || pyContains ['V','i','d'] msg
        || pyContains ['A','u','d'] msg then
      match firstTokenInt (msg.drop 2) with
      | none => s
      | some current =>
        let s1 :=
          if pyContains ['V','i','d'] msg || pyContains ['A','l','l'] msg then
            { s with current_input := some current }
          else s
        if pyContains ['A','u','d'] msg || pyContains ['A','l','l'] msg then
          { s1 with audio_input := some current }
        else s1
    else s
  else if pyStartsWith ['V'] msg && pyContains ['Q','V','E','R'] msg then
    (pySplit msg).foldl applyStatusToken s
  else if pyStartsWith ['C'] (pyUpper msg) && decide (2 ≤ msg.length) then
    match pyInt (msg.drop 1) with
    | none => s
    | some new_input =>
      { s with current_input := some new_input, audio_input := some new_input }
  else
    s

/-- `_handle_message` on a `String` line. -/
def handleMessage (s : SwState) (message : String) : SwState :=
  handleMessageL s message.toList

/-- `_handle_message` together with whether it reached the
`dispatcher_send(SIGNAL_SW6_UPDATE)` notification at its end: a line that is
empty after `strip()` returns early (lines 99–101), before the dispatch. -/
def handleMessageNotify (s : SwState) (message : String) : SwState × Bool :=
  if (pyStrip message.toList).isEmpty then (s, false)
  else (handleMessage s message, true)

/-- Outcome of a controller operation: the resulting state, the lines written
to the stream in order (`send_command` appends `"\r"` to each command), and
whether an error was reported via `_LOGGER.error`. -/
structure CmdResult where
  state : SwState
  sent : List String
  errored : Bool
deriving Repr, DecidableEq

/-- `ExtronSwitcher.set_input` (`__init__.py` lines 190–205): if auto mode is
on, first send `F1` and optimistically clear `auto_mode`; then send
`"<n>!"` when `0 < n ≤ 6`, else log an error. -/
def set_input (s : SwState) (input_number : Int) : CmdResult :=
  let step1 : SwState × List String :=
    if s.auto_mode then ({ s with auto_mode := false }, ["F1\r"]) else (s, [])
  if 0 < input_number ∧ input_number ≤ 6 then
    ⟨step1.1, step1.2 ++ [toString input_number ++ "!\r"], false⟩
  else
    ⟨step1.1, step1.2, true⟩

/-- `ExtronSwitcher.set_auto_mode` (`__init__.py` lines 207–213). -/
def set_auto_mode (s : SwState) (enable : Bool) : CmdResult :=
  ⟨{ s with auto_mode := enable }, [(if enable then "F2" else "F1") ++ "\r"], false⟩

/-- `ExtronSwitcher.connect` (`__init__.py` lines 78–86): open, mark
available, query status with `"I"`. -/
def connectOp (s : SwState) : CmdResult :=
  ⟨{ s with available := true }, ["I\r"], false⟩

/-- `ExtronSwitcher.disconnect` (`__init__.py` lines 88–91). -/
def disconnectOp (s : SwState) : CmdResult :=
  ⟨{ s with available := false }, [], false⟩

/-- One decoded character processed by `ExtronSerialClient._read_loop`
(`extron_serial.py` lines 55–72): CR/LF flushes a non-empty buffer as a
completed line, CR/LF on an empty buffer is dropped, any other character is
appended to the buffer. -/
def readStep (buffer : List Char) (ch : Char) : List Char × Option (List Char) :=
  if ch = '\r' || ch = '\n' then
    if buffer.isEmpty then ([], none) else ([], some buffer)
  else (buffer ++ [ch], none)

/-- `_read_loop` over a finite decoded input: the final buffer and the lines
handed to `on_message`, in order. -/
def readLoop (buffer : List Char) : List Char → List Char × List (List Char)
  | [] => (buffer, [])
  | ch :: rest =>
    match readStep buffer ch with
    | (buf2, none) => readLoop buf2 rest
    | (buf2, some m) =>
      let r := readLoop buf2 rest
      (r.1, m :: r.2)

/-- URL actually opened by the Transport: `ExtronSerialClient.__init__`
(`extron_serial.py` lines 22–26) rewrites a `tcp://` prefix to `socket://`,
and `connect` opens `self.device_url`, the rewritten form. -/
def transportOpenUrl (device_url : String) : String :=
  if pyStartsWith ['t','c','p',':','/','/'] device_url.toList then
    "socket://" ++ String.mk (device_url.toList.drop 6)
  else device_url

/-- URL opened by the config-flow connection test
(`config_flow.py` lines 37–41): `try_open` passes the user-entered
`device_url` to `serial_for_url` verbatim, with no rewrite. -/
def configFlowOpenUrl (device_url : String) : String := device_url

/-! ### Branch equations for `handleMessageL` -/

/-- A line that is empty after stripping is ignored. -/
theorem handleMessageL_of_empty (s : SwState) (msg : List Char)
    (h : (pyStrip msg).isEmpty = true) : handleMessageL s msg = s := by
  simp [handleMessageL, h]

/-- An `In`/`IN` line without `All`/`Vid`/`Aud` changes nothing. -/
theorem handleMessageL_in_nomark (s : SwState) (msg : List Char)
    (h0 : (pyStrip msg).isEmpty = false)
    (hIn : (pyStartsWith ['I','n'] (pyStrip msg)
        || pyStartsWith ['I','N'] (pyStrip msg)) = true)
    (hMark : (pyContains ['A','l','l'] (pyStrip msg)
        || pyContains ['V','i','d'] (pyStrip msg)
        || pyContains ['A','u','d'] (pyStrip msg)) = false) :
    handleMessageL s msg = s := by
  simp [handleMessageL, h0, hIn, hMark]

/-- An `In`/`IN` confirmation whose integer fails to parse changes nothing. -/
theorem handleMessageL_in_noparse (s : SwState) (msg : List Char)
    (h0 : (pyStrip msg).isEmpty = false)
    (hIn : (pyStartsWith ['I','n'] (pyStrip msg)
        || pyStartsWith ['I','N'] (pyStrip msg)) = true)
    (hMark : (pyContains ['A','l','l'] (pyStrip msg)
        || pyContains ['V','i','d'] (pyStrip msg)
        || pyContains ['A','u','d'] (pyStrip msg)) = true)
    (hv : firstTokenInt ((pyStrip msg).drop 2) = none) :
    handleMessageL s msg = s := by
  simp [handleMessageL, h0, hIn, hMark, hv]

/-- An `In`/`IN` confirmation with a parsed integer updates the video input
when `Vid`/`All` is present and the audio input when `Aud`/`All` is. -/
theorem handleMessageL_in_parse (s : SwState) (msg : List Char) (v : Int)
    (h0 : (pyStrip msg).isEmpty = false)
    (hIn : (pyStartsWith ['I','n'] (pyStrip msg)
        || pyStartsWith ['I','N'] (pyStrip msg)) = true)
    (hMark : (pyContains ['A','l','l'] (pyStrip msg)
        || pyContains ['V','i','d'] (pyStrip msg)
        || pyContains ['A','u','d'] (pyStrip msg)) = true)
    (hv : firstTokenInt ((pyStrip msg).drop 2) = some v) :
    handleMessageL s msg =
      (if (pyContains ['A','u','d'] (pyStrip msg)
            || pyContains ['A','l','l'] (pyStrip msg)) = true then
        { (if (pyContains ['V','i','d'] (pyStrip msg)
                || pyContains ['A','l','l'] (pyStrip msg)) = true then
             { s with current_input := some v } else s) with
          audio_input := some v }
       else
        (if (pyContains ['V','i','d'] (pyStrip msg)
              || pyContains ['A','l','l'] (pyStrip msg)) = true then
           { s with current_input := some v } else s)) := by
  simp [handleMessageL, h0, hIn, hMark, hv]

/-- A status-dump line folds `applyStatusToken` over its tokens. -/
theorem handleMessageL_status (s : SwState) (msg : List Char)
    (h0 : (pyStrip msg).isEmpty = false)
    (hIn : (pyStartsWith ['I','n'] (pyStrip msg)
        || pyStartsWith ['I','N'] (pyStrip msg)) = false)
    (hSt : (pyStartsWith ['V'] (pyStrip msg)
        && pyContains ['Q','V','E','R'] (pyStrip msg)) = true) :
    handleMessageL s msg = (pySplit (pyStrip msg)).foldl applyStatusToken s := by
  simp [handleMessageL, h0, hIn, hSt]

/-- A front-panel `C<n>` line with a parsed integer sets both inputs. -/
theorem handleMessageL_front_parse (s : SwState) (msg : List Char) (n : Int)
    (h0 : (pyStrip msg).isEmpty = false)
    (hIn : (pyStartsWith ['I','n'] (pyStrip msg)
        || pyStartsWith ['I','N'] (pyStrip msg)) = false)
    (hSt : (pyStartsWith ['V'] (pyStrip msg)
        && pyContains ['Q','V','E','R'] (pyStrip msg)) = false)
    (hC : (pyStartsWith ['C'] (pyUpper (pyStrip msg))
        && decide (2 ≤ (pyStrip msg).length)) = true)
    (hn : pyInt ((pyStrip msg).drop 1) = some n) :
    handleMessageL s msg =
      { s with current_input := some n, audio_input := some n } := by
  rw [List.drop_one] at hn
  simp [handleMessageL, h0, hIn, hSt, hC, hn]

/-- A front-panel `C` line whose integer fails to parse changes nothing. -/
theorem handleMessageL_front_noparse (s : SwState) (msg : List Char)
    (h0 : (pyStrip msg).isEmpty = false)
    (hIn : (pyStartsWith ['I','n'] (pyStrip msg)
        || pyStartsWith ['I','N'] (pyStrip msg)) = false)
    (hSt : (pyStartsWith ['V'] (pyStrip msg)
        && pyContains ['Q','V','E','R'] (pyStrip msg)) = false)
    (hC : (pyStartsWith ['C'] (pyUpper (pyStrip msg))
        && decide (2 ≤ (pyStrip msg).length)) = true)
    (hn : pyInt ((pyStrip msg).drop 1) = none) :
    handleMessageL s msg = s := by
  rw [List.drop_one] at hn
  simp [handleMessageL, h0, hIn, hSt, hC, hn]

/-- `Reconfig`, `E0`/`E1` and unrecognized lines change nothing. -/
theorem handleMessageL_other (s : SwState) (msg : List Char)
    (h0 : (pyStrip msg).isEmpty = false)
    (hIn : (pyStartsWith ['I','n'] (pyStrip msg)
        || pyStartsWith ['I','N'] (pyStrip msg)) = false)
    (hSt : (pyStartsWith ['V'] (pyStrip msg)
        && pyContains ['Q','V','E','R'] (pyStrip msg)) = false)
    (hC : (pyStartsWith ['C'] (pyUpper (pyStrip msg))
        && decide (2 ≤ (pyStrip msg).length)) = false) :
    handleMessageL s msg = s := by
  simp [handleMessageL, h0, hIn, hSt, hC]

/-! ### The effect of a status-dump line as a set of last-writes

`applyStatusToken` only ever overwrites fields with values computed from the
token alone, so a token list denotes a `TokWrites` record: for each field,
the last value written, if any.  This is the key to replay idempotence. -/

/-- Pending writes accumulated by a list of status tokens. -/
structure TokWrites where
  v : Option Int
  a : Option Int
  f : Option Bool
  q : Option (List Char)
deriving Repr, DecidableEq

/-- Accumulate one status token into the pending writes. -/
def tokStep (w : TokWrites) (t : List Char) : TokWrites :=
  if pyStartsWith ['V'] t then
    match pyInt (t.drop 1) with
    | some n => { w with v := some n }
    | none => w
  else if pyStartsWith ['A'] t then
    match pyInt (t.drop 1) with
    | some n => { w with a := some n }
    | none => w
  else if pyStartsWith ['F'] t then
    { w with f := some (decide (t.drop 1 = ['2'])) }
  else if pyStartsWith ['Q','V','E','R'] t then
    { w with q := some (removeQVER t) }
  else w

/-- Apply pending writes to a state. -/
def applyWrites (w : TokWrites) (s : SwState) : SwState :=
  { s with
    current_input := match w.v with | some n => some n | none => s.current_input
    audio_input := match w.a with | some n => some n | none => s.audio_input
    auto_mode := w.f.getD s.auto_mode
    sw_version := match w.q with | some q => some (String.mk q) | none => s.sw_version }

theorem applyStatusToken_applyWrites (w : TokWrites) (t : List Char)
    (s : SwState) :
    applyStatusToken (applyWrites w s) t = applyWrites (tokStep w t) s := by
  simp only [applyStatusToken, tokStep]
  split_ifs with h1 h2 h3 h4
  · rcases hp : pyInt (t.drop 1) with _ | n <;> simp [applyWrites]
  · rcases hp : pyInt (t.drop 1) with _ | n <;> simp [applyWrites]
  · simp [applyWrites]
  · simp [applyWrites]
  · rfl

theorem applyWrites_self (w : TokWrites) (s : SwState) :
    applyWrites w (applyWrites w s) = applyWrites w s := by
  obtain ⟨v, a, f, q⟩ := w
  cases v <;> cases a <;> cases f <;> cases q <;> simp [applyWrites]

theorem foldl_tokens_applyWrites (ts : List (List Char)) (w : TokWrites)
    (s : SwState) :
    ts.foldl applyStatusToken (applyWrites w s)
      = applyWrites (ts.foldl tokStep w) s := by
  induction ts generalizing w with
  | nil => rfl
  | cons t ts ih =>
    rw [List.foldl_cons, List.foldl_cons, applyStatusToken_applyWrites, ih]

theorem applyWrites_none (s : SwState) :
    applyWrites ⟨none, none, none, none⟩ s = s := rfl

theorem foldl_applyStatusToken_eq (ts : List (List Char)) (s : SwState) :
    ts.foldl applyStatusToken s
      = applyWrites (ts.foldl tokStep ⟨none, none, none, none⟩) s := by
  have h := foldl_tokens_applyWrites ts ⟨none, none, none, none⟩ s
  rwa [applyWrites_none] at h

theorem foldl_applyStatusToken_idem (ts : List (List Char)) (s : SwState) :
    ts.foldl applyStatusToken (ts.foldl applyStatusToken s)
      = ts.foldl applyStatusToken s := by
  rw [foldl_applyStatusToken_eq ts (ts.foldl applyStatusToken s),
    foldl_applyStatusToken_eq ts s, applyWrites_self]

/-- Replaying any line is idempotent: every update writes values computed
from the line alone. -/
theorem handleMessageL_idem (s : SwState) (msg : List Char) :
    handleMessageL (handleMessageL s msg) msg = handleMessageL s msg := by
  by_cases h0 : (pyStrip msg).isEmpty = true
  · rw [handleMessageL_of_empty _ _ h0, handleMessageL_of_empty _ _ h0]
  · rw [Bool.not_eq_true] at h0
    by_cases hIn : (pyStartsWith ['I','n'] (pyStrip msg)
        || pyStartsWith ['I','N'] (pyStrip msg)) = true
    · by_cases hMark : (pyContains ['A','l','l'] (pyStrip msg)
          || pyContains ['V','i','d'] (pyStrip msg)
          || pyContains ['A','u','d'] (pyStrip msg)) = true
      · rcases hv : firstTokenInt ((pyStrip msg).drop 2) with _ | v
        · rw [handleMessageL_in_noparse _ _ h0 hIn hMark hv,
            handleMessageL_in_noparse _ _ h0 hIn hMark hv]
        · rw [handleMessageL_in_parse _ _ v h0 hIn hMark hv,
            handleMessageL_in_parse _ _ v h0 hIn hMark hv]
          by_cases hA : (pyContains ['A','u','d'] (pyStrip msg)
              || pyContains ['A','l','l'] (pyStrip msg)) = true <;>
            by_cases hV : (pyContains ['V','i','d'] (pyStrip msg)
              || pyContains ['A','l','l'] (pyStrip msg)) = true <;>
            simp [hA, hV]
      · rw [Bool.not_eq_true] at hMark
        rw [handleMessageL_in_nomark _ _ h0 hIn hMark,
          handleMessageL_in_nomark _ _ h0 hIn hMark]
    · rw [Bool.not_eq_true] at hIn
      by_cases hSt : (pyStartsWith ['V'] (pyStrip msg)
          && pyContains ['Q','V','E','R'] (pyStrip msg)) = true
      · rw [handleMessageL_status _ _ h0 hIn hSt,
          handleMessageL_status _ _ h0 hIn hSt, foldl_applyStatusToken_idem]
      · rw [Bool.not_eq_true] at hSt
        by_cases hC : (pyStartsWith ['C'] (pyUpper (pyStrip msg))
            && decide (2 ≤ (pyStrip msg).length)) = true
        · rcases hn : pyInt ((pyStrip msg).drop 1) with _ | n
          · rw [handleMessageL_front_noparse _ _ h0 hIn hSt hC hn,
              handleMessageL_front_noparse _ _ h0 hIn hSt hC hn]
          · rw [handleMessageL_front_parse _ _ n h0 hIn hSt hC hn,
              handleMessageL_front_parse _ _ n h0 hIn hSt hC hn]
        · rw [Bool.not_eq_true] at hC
          rw [handleMessageL_other _ _ h0 hIn hSt hC,
            handleMessageL_other _ _ h0 hIn hSt hC]

/-! ### The 1–6 range invariant -/

/-- An optional input value is in range when, if known, it lies in 1–6. -/
def inRange16 (o : Option Int) : Bool := o.all fun n => decide (1 ≤ n) && decide (n ≤ 6)

/-- The spec's invariant: `current_input` and `audio_input`, when known, lie
within 1–6. -/
def validState (s : SwState) : Bool :=
  inRange16 s.current_input && inRange16 s.audio_input

/-- A status token carries only in-range input numbers: if it is a `V` or
`A` token whose remainder parses, the parsed value lies in 1–6. -/
def tokenBounded (t : List Char) : Bool :=
  if pyStartsWith ['V'] t || pyStartsWith ['A'] t then
    match pyInt (t.drop 1) with
    | some n => decide (1 ≤ n ∧ n ≤ 6)
    | none => true
  else true

/-- A line carries only in-range input numbers: every integer
`_handle_message` would extract from it lies in 1–6.  A real SW6 has six
inputs, so every line the device emits satisfies this. -/
def msgBounded (message : List Char) : Bool :=
  if (pyStrip message).isEmpty then true
  else if pyStartsWith ['I','n'] (pyStrip message)
      || pyStartsWith ['I','N'] (pyStrip message) then
    match firstTokenInt ((pyStrip message).drop 2) with
    | some n => decide (1 ≤ n ∧ n ≤ 6)
    | none => true
  else if pyStartsWith ['V'] (pyStrip message)
      && pyContains ['Q','V','E','R'] (pyStrip message) then
    (pySplit (pyStrip message)).all tokenBounded
  else if pyStartsWith ['C'] (pyUpper (pyStrip message))
      && decide (2 ≤ (pyStrip message).length) then
    match pyInt ((pyStrip message).drop 1) with
    | some n => decide (1 ≤ n ∧ n ≤ 6)
    | none => true
  else true

theorem applyStatusToken_bounded (s : SwState) (t : List Char)
    (hs : validState s = true) (ht : tokenBounded t = true) :
    validState (applyStatusToken s t) = true := by
  simp only [applyStatusToken]
  split_ifs with h1 h2 h3 h4
  · rcases hp : pyInt (t.drop 1) with _ | n <;> rw [List.drop_one] at hp
    · simpa [hp] using hs
    · have hor : (pyStartsWith ['V'] t || pyStartsWith ['A'] t) = true := by
        simp [h1]
      have hb : (1 ≤ n ∧ n ≤ 6) := by
        simpa [tokenBounded, hor, hp] using ht
      simp only [validState, inRange16, Bool.and_eq_true] at hs
      simp [hp, validState, inRange16, hb.1, hb.2, hs.2]
  · rcases hp : pyInt (t.drop 1) with _ | n <;> rw [List.drop_one] at hp
    · simpa [hp] using hs
    · have hor : (pyStartsWith ['V'] t || pyStartsWith ['A'] t) = true := by
        simp [h2]
      have hb : (1 ≤ n ∧ n ≤ 6) := by
        simpa [tokenBounded, hor, hp] using ht
      simp only [validState, inRange16, Bool.and_eq_true] at hs
      simp [hp, validState, inRange16, hb.1, hb.2, hs.1]
  · simpa [validState, inRange16] using hs
  · simpa [validState, inRange16] using hs
  · exact hs

theorem foldl_statusToken_bounded (ts : List (List Char)) (s : SwState)
    (hs : validState s = true) (hts : ts.all tokenBounded = true) :
    validState (ts.foldl applyStatusToken s) = true := by
  induction ts generalizing s with
  | nil => exact hs
  | cons t ts ih =>
    rw [List.all_cons, Bool.and_eq_true] at hts
    exact ih _ (applyStatusToken_bounded s t hs hts.1) hts.2

/-- A `V`/`A` status token whose integer fails to parse is a no-op. -/
theorem applyStatusToken_skip (s : SwState) (t : List Char)
    (h : (pyStartsWith ['V'] t || pyStartsWith ['A'] t) = true)
    (hp : pyInt (t.drop 1) = none) : applyStatusToken s t = s := by
  rw [List.drop_one] at hp
  by_cases hV : pyStartsWith ['V'] t = true
  · simp [applyStatusToken, hV, hp]
  · rw [Bool.not_eq_true] at hV
    have hA : pyStartsWith ['A'] t = true := by simpa [hV] using h
    simp [applyStatusToken, hV, hA, hp]

/-- A message whose embedded input numbers are in range preserves the 1–6
invariant. -/
theorem handleMessageL_bounded (s : SwState) (msg : List Char)
    (hs : validState s = true) (hb : msgBounded msg = true) :
    validState (handleMessageL s msg) = true := by
  by_cases h0 : (pyStrip msg).isEmpty = true
  · rwa [handleMessageL_of_empty _ _ h0]
  · rw [Bool.not_eq_true] at h0
    by_cases hIn : (pyStartsWith ['I','n'] (pyStrip msg)
        || pyStartsWith ['I','N'] (pyStrip msg)) = true
    · by_cases hMark : (pyContains ['A','l','l'] (pyStrip msg)
          || pyContains ['V','i','d'] (pyStrip msg)
          || pyContains ['A','u','d'] (pyStrip msg)) = true
      · rcases hv : firstTokenInt ((pyStrip msg).drop 2) with _ | v
        · rwa [handleMessageL_in_noparse _ _ h0 hIn hMark hv]
        · rw [handleMessageL_in_parse _ _ v h0 hIn hMark hv]
          have hbv : 1 ≤ v ∧ v ≤ 6 := by
            simpa [msgBounded, h0, hIn, hv] using hb
          simp only [validState, inRange16, Bool.and_eq_true] at hs
          split_ifs <;>
            simp [validState, inRange16, hbv.1, hbv.2, hs.1, hs.2]
      · rw [Bool.not_eq_true] at hMark
        rwa [handleMessageL_in_nomark _ _ h0 hIn hMark]
    · rw [Bool.not_eq_true] at hIn
      by_cases hSt : (pyStartsWith ['V'] (pyStrip msg)
          && pyContains ['Q','V','E','R'] (pyStrip msg)) = true
      · rw [handleMessageL_status _ _ h0 hIn hSt]
        have hts : (pySplit (pyStrip msg)).all tokenBounded = true := by
          simpa [msgBounded, h0, hIn, hSt] using hb
        exact foldl_statusToken_bounded _ _ hs hts
      · rw [Bool.not_eq_true] at hSt
        by_cases hC : (pyStartsWith ['C'] (pyUpper (pyStrip msg))
            && decide (2 ≤ (pyStrip msg).length)) = true
        · rcases hn : pyInt ((pyStrip msg).drop 1) with _ | n
          · rwa [handleMessageL_front_noparse _ _ h0 hIn hSt hC hn]
          · rw [handleMessageL_front_parse _ _ n h0 hIn hSt hC hn]
            rw [List.drop_one] at hn
            have hbn : 1 ≤ n ∧ n ≤ 6 := by
              simpa [msgBounded, h0, hIn, hSt, hC, hn] using hb
            simp [validState, inRange16, hbn.1, hbn.2]
        · rw [Bool.not_eq_true] at hC
          rwa [handleMessageL_other _ _ h0 hIn hSt hC]

/-! ### Claim theorems -/

/-- Claim C1, counterexample: the code never range-checks parsed input
numbers, so the classified front-panel message `"C7"` drives the state out
of the 1–6 invariant from a perfectly valid starting state. -/
theorem c1_input_range_counterexample :
    validState initState = true ∧
    handleMessage initState "C7" =
      { initState with current_input := some 7, audio_input := some 7 } ∧
    validState (handleMessage initState "C7") = false := by
  refine ⟨by decide, by decide, by decide⟩

/-- Claim C1 as amended: whenever `current_input`/`audio_input` are known
they lie within 1–6, and this invariant is preserved by every controller
operation and by any classified message whose embedded input numbers lie
within 1–6 (as every line emitted by a real six-input device does); a
classified message carrying an out-of-range number is written to the state
unchecked. -/
theorem c1_input_range_invariant (s : SwState) (message : String)
    (hs : validState s = true) (hb : msgBounded message.toList = true) :
    validState (handleMessage s message) = true ∧
    (∀ n : Int, validState (set_input s n).state = true) ∧
    (∀ e : Bool, validState (set_auto_mode s e).state = true) ∧
    validState (connectOp s).state = true ∧
    validState (disconnectOp s).state = true := by
  refine ⟨handleMessageL_bounded s message.toList hs hb, ?_, ?_, ?_, ?_⟩
  · intro n
    have hst : (set_input s n).state
        = if s.auto_mode then { s with auto_mode := false } else s := by
      simp only [set_input]
      split_ifs <;> rfl
    rw [hst]
    split_ifs <;> simpa [validState, inRange16] using hs
  · intro e
    simpa [set_auto_mode, validState, inRange16] using hs
  · simpa [connectOp, validState, inRange16] using hs
  · simpa [disconnectOp, validState, inRange16] using hs

/-- Witness for C1's amended theorem at the concrete message `"C4"`. -/
theorem c1_input_range_invariant_witness :
    validState initState = true ∧ msgBounded "C4".toList = true ∧
    validState (handleMessage initState "C4") = true :=
  ⟨by decide, by decide,
    (c1_input_range_invariant initState "C4" (by decide) (by decide)).1⟩

/-- Claim C2, counterexample: from a state with `auto_mode = true`,
`set_input 7` is out of range yet still sends bytes (the `F1` mode command)
and changes state (`auto_mode` becomes false), because the auto-mode
disable step runs before the range check. -/
theorem c2_out_of_range_counterexample :
    (set_input { initState with auto_mode := true } 7).sent ≠ [] ∧
    (set_input { initState with auto_mode := true } 7).state
      ≠ { initState with auto_mode := true } ∧
    set_input { initState with auto_mode := true } 7
      = ⟨initState, ["F1\r"], true⟩ := by
  refine ⟨by decide, by decide, by decide⟩

/-- Claim C2 as amended: for `n` outside 1–6, `set_input` reports an error
and sends no input-select command; if `auto_mode` is false it sends nothing
and leaves the state unchanged, but if `auto_mode` is true it still sends
`"F1\r"` and optimistically clears `auto_mode` before the range check
rejects `n`. -/
theorem c2_set_input_out_of_range (s : SwState) (n : Int)
    (h : ¬(1 ≤ n ∧ n ≤ 6)) :
    set_input s n =
      ⟨{ s with auto_mode := false },
        if s.auto_mode then ["F1\r"] else [], true⟩ := by
  have hr : ¬(0 < n ∧ n ≤ 6) := by omega
  obtain ⟨ci, ai, am, av, sv⟩ := s
  cases am <;> simp [set_input, hr]

/-- Witness for C2's amended theorem at `n = 7` from the initial state. -/
theorem c2_set_input_out_of_range_witness :
    ¬((1 : Int) ≤ 7 ∧ (7 : Int) ≤ 6) ∧
    set_input initState 7 = ⟨initState, [], true⟩ :=
  ⟨by decide, (c2_set_input_out_of_range initState 7 (by decide)).trans
    (by decide)⟩

/-- Claim C3: for `n` in 1–6, `set_input` with `auto_mode` off sends exactly
the single line `"<n>!\r"` and leaves the state untouched; with `auto_mode`
on it sends `"F1\r"` then `"<n>!\r"` and optimistically clears `auto_mode`;
in both cases `current_input` and `audio_input` are not updated. -/
theorem c3_set_input_in_range (s : SwState) (n : Int)
    (h1 : 1 ≤ n) (h2 : n ≤ 6) :
    (s.auto_mode = false →
      set_input s n = ⟨s, [toString n ++ "!\r"], false⟩) ∧
    (s.auto_mode = true →
      set_input s n =
        ⟨{ s with auto_mode := false },
          ["F1\r", toString n ++ "!\r"], false⟩) := by
  have hr : 0 < n ∧ n ≤ 6 := ⟨by omega, h2⟩
  constructor <;> intro hm <;> simp [set_input, hm, hr]

/-- Witness for C3 at `n = 3`, in both auto-mode states. -/
theorem c3_set_input_in_range_witness :
    (1 : Int) ≤ 3 ∧ (3 : Int) ≤ 6 ∧
    set_input initState 3 = ⟨initState, ["3!\r"], false⟩ ∧
    set_input { initState with auto_mode := true } 3
      = ⟨initState, ["F1\r", "3!\r"], false⟩ :=
  ⟨by decide, by decide,
    ((c3_set_input_in_range initState 3 (by decide) (by decide)).1
      rfl).trans (by decide),
    ((c3_set_input_in_range { initState with auto_mode := true } 3
      (by decide) (by decide)).2 rfl).trans (by decide)⟩

/-- Claim C4: `"In5 All"` updates both inputs to 5, `"In2 Vid"` only the
video input to 2, `"In4 Aud"` only the audio input to 4; in general an
`In`/`IN` confirmation line updates the video input when `Vid` or `All` is
present and the audio input when `Aud` or `All` is, to the parsed integer,
each other field staying unchanged. -/
theorem c4_input_confirmation :
    (∀ s : SwState, handleMessage s "In5 All"
      = { s with current_input := some 5, audio_input := some 5 }) ∧
    (∀ s : SwState, handleMessage s "In2 Vid"
      = { s with current_input := some 2 }) ∧
    (∀ s : SwState, handleMessage s "In4 Aud"
      = { s with audio_input := some 4 }) ∧
    (∀ (s : SwState) (msg : List Char) (v : Int),
      (pyStartsWith ['I','n'] (pyStrip msg)
        || pyStartsWith ['I','N'] (pyStrip msg)) = true →
      (pyContains ['A','l','l'] (pyStrip msg)
        || pyContains ['V','i','d'] (pyStrip msg)
        || pyContains ['A','u','d'] (pyStrip msg)) = true →
      firstTokenInt ((pyStrip msg).drop 2) = some v →
      handleMessageL s msg =
        { s with
          current_input :=
            if (pyContains ['V','i','d'] (pyStrip msg)
                || pyContains ['A','l','l'] (pyStrip msg)) = true then some v
            else s.current_input,
          audio_input :=
            if (pyContains ['A','u','d'] (pyStrip msg)
                || pyContains ['A','l','l'] (pyStrip msg)) = true then some v
            else s.audio_input }) := by
  refine ⟨fun s => rfl, fun s => rfl, fun s => rfl, ?_⟩
  intro s msg v hIn hMark hv
  have h0 : (pyStrip msg).isEmpty = false := by
    cases h : pyStrip msg
    · rw [h] at hIn
      simp [pyStartsWith, List.isPrefixOf] at hIn
    · rfl
  rw [handleMessageL_in_parse _ _ v h0 hIn hMark hv]
  split_ifs with hA hV hV <;> simp [hA, hV]

/-- Witness for C4's general clause at the line `"In3 All"`. -/
theorem c4_input_confirmation_witness :
    handleMessageL initState "In3 All".toList
      = { initState with current_input := some 3, audio_input := some 3 } :=
  (c4_input_confirmation.2.2.2 initState "In3 All".toList 3
    (by decide) (by decide) (by decide)).trans (by decide)

/-- Claim C5: the status dump `"V3 A3 F1 QVER1.23 M6"` yields video input 3,
audio input 3, manual mode and firmware version `"1.23"`, while an `M`
token never changes the state. -/
theorem c5_status_dump :
    (∀ s : SwState, handleMessage s "V3 A3 F1 QVER1.23 M6" =
      { s with current_input := some 3, audio_input := some 3,
               auto_mode := false, sw_version := some "1.23" }) ∧
    (∀ (s : SwState) (t : List Char),
      pyStartsWith ['M'] t = true → applyStatusToken s t = s) := by
  refine ⟨fun s => rfl, ?_⟩
  intro s t hM
  cases t with
  | nil => simp [pyStartsWith, List.isPrefixOf] at hM
  | cons c t' =>
    have hc : 'M' = c := by
      simpa [pyStartsWith, List.isPrefixOf] using hM
    subst hc
    have e1 : (('V' : Char) == 'M') = false := by decide
    have e2 : (('A' : Char) == 'M') = false := by decide
    have e3 : (('F' : Char) == 'M') = false := by decide
    have e4 : (('Q' : Char) == 'M') = false := by decide
    simp [applyStatusToken, pyStartsWith, List.isPrefixOf, e1, e2, e3, e4]

/-- Witness for C5's `M`-token clause at the token `"M6"`. -/
theorem c5_status_dump_witness :
    applyStatusToken initState ['M','6'] = initState :=
  c5_status_dump.2 initState ['M','6'] (by decide)

/-- Claim C6: a status-dump line is applied token by token; a `V`/`A` token
whose integer fails to parse is skipped, leaving its field unchanged, while
every other token in the same line still applies. -/
theorem c6_status_token_independence :
    (∀ (s : SwState) (msg : List Char),
      (pyStartsWith ['V'] (pyStrip msg)
        && pyContains ['Q','V','E','R'] (pyStrip msg)) = true →
      handleMessageL s msg
        = (pySplit (pyStrip msg)).foldl applyStatusToken s) ∧
    (∀ (pre post : List (List Char)) (t : List Char) (s : SwState),
      (pyStartsWith ['V'] t || pyStartsWith ['A'] t) = true →
      pyInt (t.drop 1) = none →
      (pre ++ t :: post).foldl applyStatusToken s
        = (pre ++ post).foldl applyStatusToken s) := by
  constructor
  · intro s msg hSt
    have hV : pyStartsWith ['V'] (pyStrip msg) = true :=
      ((Bool.and_eq_true _ _).mp hSt).1
    have h0 : (pyStrip msg).isEmpty = false := by
      cases h : pyStrip msg
      · rw [h] at hV
        simp [pyStartsWith, List.isPrefixOf] at hV
      · rfl
    have hIn : (pyStartsWith ['I','n'] (pyStrip msg)
        || pyStartsWith ['I','N'] (pyStrip msg)) = false := by
      cases h : pyStrip msg with
      | nil =>
        rw [h] at hV
        simp [pyStartsWith, List.isPrefixOf] at hV
      | cons c m' =>
        rw [h] at hV
        have hc : 'V' = c := by
          simpa [pyStartsWith, List.isPrefixOf] using hV
        subst hc
        have e1 : (('I' : Char) == 'V') = false := by decide
        simp [pyStartsWith, List.isPrefixOf, e1]
    exact handleMessageL_status s msg h0 hIn hSt
  · intro pre post t s h hp
    rw [List.foldl_append, List.foldl_append, List.foldl_cons,
      applyStatusToken_skip _ t h hp]

/-- Witness for C6: in `V3 Ax F2`, the unparsable `Ax` token is skipped
while `V3` and `F2` still apply. -/
theorem c6_status_token_independence_witness :
    ([['V','3']] ++ ['A','x'] :: [['F','2']]).foldl applyStatusToken initState
      = ([['V','3']] ++ [['F','2']]).foldl applyStatusToken initState :=
  c6_status_token_independence.2 [['V','3']] [['F','2']] ['A','x'] initState
    (by decide) (by decide)

/-- Claim C7: replaying any line twice yields the same state as applying it
once; every branch of the handler writes values computed from the line
alone. -/
theorem c7_replay_idempotent (s : SwState) (message : String) :
    handleMessage (handleMessage s message) message
      = handleMessage s message :=
  handleMessageL_idem s message.toList

/-- Claim C8: the reader accumulates non-CR/LF characters, flushes a
non-empty buffer as exactly one line on CR or LF, ignores CR/LF on an empty
buffer, and a line that strips to empty causes no state change and no
notification. -/
theorem c8_line_framing :
    (∀ (buffer : List Char) (ch : Char) (rest : List Char),
      ch ≠ '\r' → ch ≠ '\n' →
      readLoop buffer (ch :: rest) = readLoop (buffer ++ [ch]) rest) ∧
    (∀ (buffer : List Char) (ch : Char) (rest : List Char),
      (ch = '\r' ∨ ch = '\n') → buffer ≠ [] →
      readLoop buffer (ch :: rest)
        = ((readLoop [] rest).1, buffer :: (readLoop [] rest).2)) ∧
    (∀ (ch : Char) (rest : List Char),
      (ch = '\r' ∨ ch = '\n') → readLoop [] (ch :: rest) = readLoop [] rest) ∧
    (∀ (s : SwState) (line : String),
      pyStrip line.toList = [] → handleMessageNotify s line = (s, false)) := by
  refine ⟨?_, ?_, ?_, ?_⟩
  · intro buffer ch rest h1 h2
    simp [readLoop, readStep, h1, h2]
  · intro buffer ch rest h hb
    cases buffer with
    | nil => exact absurd rfl hb
    | cons b bs => rcases h with h | h <;> subst h <;> simp [readLoop, readStep]
  · intro ch rest h
    rcases h with h | h <;> subst h <;> simp [readLoop, readStep]
  · intro s line h
    simp only [String.toList] at h
    simp [handleMessageNotify, h]

/-- Witness for C8: `"ab\rcd"` style framing and a whitespace-only line. -/
theorem c8_line_framing_witness :
    readLoop ['a'] ('\r' :: ['b']) = (['b'], [['a']]) ∧
    handleMessageNotify initState " " = (initState, false) := by
  constructor
  · rw [c8_line_framing.2.1 ['a'] '\r' ['b'] (Or.inl rfl) (by decide)]
    decide
  · exact c8_line_framing.2.2.2 initState " " (by decide)

/-- Claim C9: the `tcp://` → `socket://` rewrite is applied only by the
Transport (`ExtronSerialClient.__init__`); the config-flow connection test
opens the raw user-entered URL, so the two open paths disagree on every
`tcp://host:port` address — the claimed equivalence fails on the code. -/
theorem c9_tcp_rewrite_divergence :
    transportOpenUrl "tcp://host:23" = "socket://host:23" ∧
    configFlowOpenUrl "tcp://host:23" = "tcp://host:23" ∧
    transportOpenUrl "tcp://host:23" ≠ configFlowOpenUrl "tcp://host:23" := by
  refine ⟨by decide, rfl, by decide⟩

/-- Claim C10: a freshly constructed switcher has both inputs unknown,
manual mode assumed, is unavailable, and has no firmware version. -/
theorem c10_initial_state :
    initState.current_input = none ∧ initState.audio_input = none ∧
    initState.auto_mode = false ∧ initState.available = false ∧
    initState.sw_version = none :=
  ⟨rfl, rfl, rfl, rfl, rfl⟩

end Extron
